import Mathlib

/-!
Verification development for the py4cast sample-windowing and assembly engine
(py4cast/datasets/base.py, py4cast/datasets/titan/__init__.py).

The Python code is shallowly embedded: datetimes are integers counting seconds
(matching the datetime64[s] resolution used by Period), numpy/torch arrays are
flattened rational-valued lists paired with a shape and a dtype tag, fallible
Python code returns Except over a small inventory of exception kinds.
-/

namespace Py4cast

/-- Python exception kinds raised by the embedded code paths. -/
inductive PyErr where
  | valueError
  | indexError
  | typeError
  | runtimeError
  | exception
  deriving DecidableEq, Repr

/-- numpy.arange over the integers, for a positive step: the values
start, start + step, start + 2*step, ... while strictly below stop.
numpy's length is max(0, ceil((stop - start)/step)), which for a positive
step equals (stop - start + step - 1).toNat / step.toNat. -/
def npArange (start stop step : Int) : List Int :=
  (List.range ((stop - start + step - 1).toNat / step.toNat)).map
    (fun k : Nat => start + (k : Int) * step)

/-- One day in seconds: the 24h spacing of Period.date_list. -/
def secondsPerDay : Int := 86400

/-- Period (base.py lines 359-393). __post_init__ parses start/end from
"%Y%m%d%H" strings into numpy datetime64 values; the embedding carries them
directly as seconds. The source field named end is called endDate here
because end is a Lean keyword. -/
structure Period where
  start : Int
  endDate : Int
  step_duration : Int
  name : String
  term_start : Int
  term_end : Int
  deriving DecidableEq, Repr

/-- Period.terms_list (base.py lines 379-381):
np.arange(term_start, term_end + 1, step_duration). -/
def Period.terms_list (p : Period) : List Int :=
  npArange p.term_start (p.term_end + 1) p.step_duration

/-- Period.date_list (base.py lines 383-393):
np.arange(start, end + timedelta64(1, "D"), timedelta64(1, "D")) at
datetime64[s] resolution. -/
def Period.date_list (p : Period) : List Int :=
  npArange p.start (p.endDate + secondsPerDay) secondsPerDay

/-- Concrete period from the spec scenario: start 2021-06-15T00:00 and
end 2021-06-15T03:00 as seconds since the epoch, step_duration 2 hours,
term window 0..11. -/
def periodScenario : Period :=
  { start := 1623715200, endDate := 1623726000, step_duration := 2,
    name := "test", term_start := 0, term_end := 11 }

/-- torch/numpy dtype tags relevant to the embedded code. -/
inductive DType where
  | float16
  | float32
  | float64
  deriving DecidableEq, Repr

/-- A torch/numpy array: a shape, a dtype tag and the row-major flattened
rational entries. The uniform-precision conversion .type(torch.float32) is
modelled as retagging the dtype; the numeric rounding a narrowing conversion
performs lies outside this rational embedding and no claim depends on it. -/
structure NDTensor where
  shape : List Nat
  dtype : DType
  data : List Rat
  deriving DecidableEq, Repr

/-- tensor.type(torch.float32). -/
def NDTensor.typeFloat32 (t : NDTensor) : NDTensor :=
  { t with dtype := DType.float32 }

/-- Number of features: the size of the last axis. -/
def NDTensor.featCount (t : NDTensor) : Nat :=
  t.shape.getLastD 1

/-- Python slice tensor[:n] along the first axis (clamped like Python). -/
def NDTensor.sliceFirst (t : NDTensor) (n : Nat) : NDTensor :=
  match t.shape with
  | [] => t
  | d :: rest =>
    { shape := min n d :: rest, dtype := t.dtype,
      data := t.data.take (n * rest.prod) }

/-- Python slice tensor[-k:] along the first axis. For k = 0 the Python
slice t[-0:] is t[0:], the whole tensor; for k > 0 it is the last
min(k, d) rows (clamped like Python). -/
def NDTensor.sliceLast (t : NDTensor) (k : Nat) : NDTensor :=
  match t.shape with
  | [] => t
  | d :: rest =>
    if k = 0 then t
    else
      { shape := min k d :: rest, dtype := t.dtype,
        data := t.data.drop ((d - k) * rest.prod) }

/-- Elementwise z-score standardization (value - mean) / std. -/
def NDTensor.standardizeWith (t : NDTensor) (mean std : Rat) : NDTensor :=
  { t with data := t.data.map (fun x => (x - mean) / std) }

/-- Per-parameter statistics record. The source stores mean/std/min/max; the
last two are called minv/maxv here to avoid clashing with the order functions. -/
structure StatEntry where
  mean : Rat
  std : Rat
  minv : Rat
  maxv : Rat
  deriving DecidableEq, Repr

/-- Modelled from the spec: the Statistics store maps parameter short names to
{mean, std, min, max} (py4cast.datasets.access.Stats is not under src; spec 3
and 6 describe it as a read-only persisted mapping). Lookup of a missing key
defaults to mean 0 / std 1; the KeyError path is never exercised by the claims. -/
structure Stats where
  entries : List (String × StatEntry)
  deriving DecidableEq, Repr

def Stats.lookup (st : Stats) (nm : String) : StatEntry :=
  (((st.entries.find? (fun e => e.fst == nm)).map Prod.snd).getD
    { mean := 0, std := 1, minv := 0, maxv := 0 })

/-- Parameter role (base.py / spec 3: input, output or input_output). -/
inductive ParamKind where
  | input
  | output
  | input_output
  deriving DecidableEq, Repr

/-- WeatherParam (py4cast.datasets.access, not under src): the fields base.py
reads — name, level, kind and the derived parameter_short_name. -/
structure WeatherParam where
  name : String
  level : Int
  kind : ParamKind
  parameter_short_name : String
  deriving DecidableEq, Repr

/-- SamplePreprocSettings (py4cast.datasets.access, not under src): the fields
base.py reads — dataset_name, num_input_steps, num_pred_steps, standardize,
file_format. -/
structure SamplePreprocSettings where
  dataset_name : String
  num_input_steps : Nat
  num_pred_steps : Nat
  standardize : Bool
  file_format : String
  deriving DecidableEq, Repr

/-- Timestamps (base.py lines 180-199): reference datetime, hour-offset terms
and absolute validity datetimes, all carried as seconds in this embedding.
The dataclass itself enforces nothing about the lists' lengths. -/
structure Timestamps where
  datetime : Int
  terms : List Int
  validity_times : List Int
  deriving DecidableEq, Repr

/-- Modelled from mfai.torch.namedtensor.NamedTensor: a tensor together with
its ordered axis names and the feature names along the last (features) axis. -/
structure NamedTensor where
  tensor : NDTensor
  names : List String
  feature_names : List String
  deriving DecidableEq, Repr

/-- Item (base.py lines 40-51): the three dimension-labelled tensors. -/
structure Item where
  inputs : NamedTensor
  forcing : NamedTensor
  outputs : NamedTensor
  deriving DecidableEq, Repr

/-- Item.__post_init__ (base.py lines 88-103): raises ValueError when inputs
and outputs differ in dim names, or differ in feature names. -/
def mkItem (inputs forcing outputs : NamedTensor) : Except PyErr Item :=
  if inputs.names ≠ outputs.names then .error .valueError
  else if inputs.feature_names ≠ outputs.feature_names then .error .valueError
  else .ok { inputs := inputs, forcing := forcing, outputs := outputs }

/-- ItemBatch (base.py lines 136-155): an Item with a leading batch axis;
batch_size / num_input_steps / num_pred_steps are read from axis sizes. -/
structure ItemBatch where
  inputs : NamedTensor
  forcing : NamedTensor
  outputs : NamedTensor
  deriving DecidableEq, Repr

def ItemBatch.batch_size (b : ItemBatch) : Nat :=
  b.inputs.tensor.shape.headD 0

/-- ItemBatch construction runs the inherited Item.__post_init__ checks. -/
def mkItemBatch (inputs forcing outputs : NamedTensor) : Except PyErr ItemBatch :=
  if inputs.names ≠ outputs.names then .error .valueError
  else if inputs.feature_names ≠ outputs.feature_names then .error .valueError
  else .ok { inputs := inputs, forcing := forcing, outputs := outputs }

/-- torch.utils.data._utils.collate.collate_tensor_fn: torch.stack along a new
leading axis; an empty list or mismatched shapes/dtypes raise. -/
def collate_tensor_fn (ts : List NDTensor) : Except PyErr NDTensor :=
  match ts with
  | [] => .error .runtimeError
  | a :: rest =>
    if (∀ b ∈ rest, b.shape = a.shape ∧ b.dtype = a.dtype) then
      .ok { shape := (a :: rest).length :: a.shape, dtype := a.dtype,
            data := (a :: rest).flatMap (fun t => t.data) }
    else .error .runtimeError

/-- Modelled from mfai NamedTensor.expand_to_batch_like: wraps an already
batched tensor with a new leading "batch" axis name and the reference
NamedTensor's metadata. -/
def expand_to_batch_like (t : NDTensor) (other : NamedTensor) : NamedTensor :=
  { tensor := t, names := "batch" :: other.names,
    feature_names := other.feature_names }

/-- collate_fn (base.py lines 158-177): for each of the dataclass fields
inputs, forcing, outputs (in that order), stack the raw tensors of all items,
convert to float32, and wrap with the metadata of items[0]; finally build the
ItemBatch (running the inherited consistency checks). No cross-item metadata
validation is performed. -/
def collate_fn (items : List Item) : Except PyErr ItemBatch :=
  match items with
  | [] =>
    -- collate_tensor_fn of an empty list raises before items[0] is read
    match collate_tensor_fn [] with
    | .error e => .error e
    | .ok _ => .error .indexError
  | it0 :: rest => do
    let bi ← (collate_tensor_fn ((it0 :: rest).map (fun it => it.inputs.tensor))).map
      NDTensor.typeFloat32
    let ni := expand_to_batch_like bi it0.inputs
    let bf ← (collate_tensor_fn ((it0 :: rest).map (fun it => it.forcing.tensor))).map
      NDTensor.typeFloat32
    let nf := expand_to_batch_like bf it0.forcing
    let bo ← (collate_tensor_fn ((it0 :: rest).map (fun it => it.outputs.tensor))).map
      NDTensor.typeFloat32
    let no2 := expand_to_batch_like bo it0.outputs
    mkItemBatch ni nf no2

/-- Sample (base.py lines 424-471). The dataclass fields exists and
get_param_tensor are injected functions; function values have no decidable
equality, so they are passed explicitly to is_valid / load below. grid is an
opaque name tag (access.Grid is not under src and no claim reads it). -/
structure Sample where
  timestamps : Timestamps
  settings : SamplePreprocSettings
  params : List WeatherParam
  stats : Stats
  grid : String
  member : Int
  input_timestamps : Timestamps
  output_timestamps : Timestamps
  deriving DecidableEq, Repr

/-- Sample.__post_init__ (base.py lines 448-471): raises when
num_input_steps + num_pred_steps differs from len(timestamps.validity_times),
then splits terms and validity_times into the input and output sub-ranges. -/
def mkSample (timestamps : Timestamps) (settings : SamplePreprocSettings)
    (params : List WeatherParam) (stats : Stats) (grid : String) (member : Int) :
    Except PyErr Sample :=
  if settings.num_input_steps + settings.num_pred_steps ≠
      timestamps.validity_times.length then
    .error .exception
  else
    .ok { timestamps := timestamps, settings := settings, params := params,
          stats := stats, grid := grid, member := member,
          input_timestamps :=
            { datetime := timestamps.datetime,
              terms := timestamps.terms.take settings.num_input_steps,
              validity_times :=
                timestamps.validity_times.take settings.num_input_steps },
          output_timestamps :=
            { datetime := timestamps.datetime,
              terms := timestamps.terms.drop settings.num_input_steps,
              validity_times :=
                timestamps.validity_times.drop settings.num_input_steps } }

/-- Sample.is_valid (base.py lines 476-485): AND over all parameters of the
injected exists check, short-circuiting on the first failure. -/
def Sample.is_valid (s : Sample)
    (exf : String → WeatherParam → Timestamps → String → Bool) : Bool :=
  s.params.all (fun q =>
    exf s.settings.dataset_name q s.timestamps s.settings.file_format)

/-- Signature of the injected get_param_tensor callable, mirroring the keyword
arguments Sample.load passes: param, stats, timestamps, settings, standardize,
member. -/
abbrev FetchFn :=
  WeatherParam → Stats → Timestamps → SamplePreprocSettings → Bool → Int → NDTensor

/-- The four axis names every per-parameter state tensor is labelled with
(base.py line 497). -/
def axes4 : List String := ["timestep", "lat", "lon", "features"]

/-- The parameter loop of Sample.load (base.py lines 494-543), recorded as the
ordered fetch calls plus the linputs and loutputs lists it accumulates.
kind input: the tensor is fetched over input_timestamps and wrapped, but the
source never appends the wrapped tensor to any list (dead store at lines
501-509), so only the fetch call is observable. kind output: fetched over
output_timestamps and appended to loutputs. kind input_output: fetched once
over the full timestamps; tensor[-num_pred_steps:] is appended to loutputs and
tensor[:num_input_steps] to linputs. -/
def loadLoop (s : Sample) (fetch : FetchFn) (std_flag : Bool) :
    List WeatherParam →
      List (WeatherParam × Timestamps) × List NamedTensor × List NamedTensor
  | [] => ([], [], [])
  | q :: rest =>
    let acc := loadLoop s fetch std_flag rest
    match q.kind with
    | ParamKind.input =>
      ((q, s.input_timestamps) :: acc.1, acc.2.1, acc.2.2)
    | ParamKind.output =>
      ((q, s.output_timestamps) :: acc.1, acc.2.1,
        { tensor := fetch q s.stats s.output_timestamps s.settings std_flag s.member,
          names := axes4, feature_names := [q.parameter_short_name] } :: acc.2.2)
    | ParamKind.input_output =>
      let t := fetch q s.stats s.timestamps s.settings std_flag s.member
      ((q, s.timestamps) :: acc.1,
        { tensor := t.sliceFirst s.settings.num_input_steps,
          names := axes4, feature_names := [q.parameter_short_name] } :: acc.2.1,
        { tensor := t.sliceLast s.settings.num_pred_steps,
          names := axes4, feature_names := [q.parameter_short_name] } :: acc.2.2)

/-- Modelled from mfai NamedTensor.concat: concatenation along the last
(features) axis; an empty list or mismatched axis names / leading shapes /
dtypes raise ValueError. -/
def ntConcat (ls : List NamedTensor) : Except PyErr NamedTensor :=
  match ls with
  | [] => .error .valueError
  | a :: rest =>
    if (∀ b ∈ rest, b.names = a.names ∧
        b.tensor.shape.dropLast = a.tensor.shape.dropLast ∧
        b.tensor.dtype = a.tensor.dtype) then
      .ok { tensor :=
              { shape := a.tensor.shape.dropLast ++
                  [((a :: rest).map (fun x => x.tensor.featCount)).sum],
                dtype := a.tensor.dtype,
                data := (List.range a.tensor.shape.dropLast.prod).flatMap
                  (fun c => (a :: rest).flatMap (fun x =>
                    ((x.tensor.data.drop (c * x.tensor.featCount)).take
                      x.tensor.featCount))) },
            names := a.names,
            feature_names := (a :: rest).flatMap (fun x => x.feature_names) }
    else .error .valueError

instance {a b : Type} [DecidableEq a] [DecidableEq b] : DecidableEq (Except a b) :=
  fun x y =>
    match x, y with
    | Except.error u, Except.error v =>
      if h : u = v then isTrue (congrArg Except.error h)
      else isFalse (fun hc => h (Except.error.inj hc))
    | Except.error _, Except.ok _ => isFalse (fun hc => Except.noConfusion hc)
    | Except.ok _, Except.error _ => isFalse (fun hc => Except.noConfusion hc)
    | Except.ok u, Except.ok v =>
      if h : u = v then isTrue (congrArg Except.ok h)
      else isFalse (fun hc => h (Except.ok.inj hc))

/-- The observable behaviour of one Sample.load call: the ordered fetch calls
(parameter, timestamps argument), the accumulated linputs and loutputs lists,
and the produced Item or the raised exception. -/
structure LoadTrace where
  fetches : List (WeatherParam × Timestamps)
  linputs : List NamedTensor
  loutputs : List NamedTensor
  result : Except PyErr Item
  deriving DecidableEq, Repr

/-- Sample.load (base.py lines 487-558). fetch stands for the injected
get_param_tensor; forcings stands for the list generate_forcings returns
(generate_forcings depends on py4cast.forcingutils, absent from src — the spec
fixes only its shape and no claim constrains its values); expand stands for
mfai's forcing.unsqueeze_and_expand_from_(linputs[0]), whose indexing of
linputs[0] is what raises IndexError when linputs is empty. -/
def Sample.load (s : Sample) (fetch : FetchFn) (forcings : List NamedTensor)
    (expand : NamedTensor → NamedTensor → NamedTensor)
    (no_standardize : Bool) : LoadTrace :=
  let std_flag := s.settings.standardize && !no_standardize
  let acc := loadLoop s fetch std_flag s.params
  let result : Except PyErr Item :=
    match acc.2.1 with
    | [] => .error .indexError
    | l0 :: restLin => do
      let lforcings := forcings.map (fun f => expand f l0)
      let ci ← ntConcat (l0 :: restLin)
      let co ← ntConcat acc.2.2
      let cf ← ntConcat lforcings
      mkItem ci cf co
  { fetches := acc.1, linputs := acc.2.1, loutputs := acc.2.2, result := result }

/-- The timestamps argument Sample.load passes to get_param_tensor for a
parameter of each kind (base.py lines 499-531). -/
def tsArg (s : Sample) (q : WeatherParam) : Timestamps :=
  match q.kind with
  | ParamKind.input => s.input_timestamps
  | ParamKind.output => s.output_timestamps
  | ParamKind.input_output => s.timestamps

/-- A settings record with one input step and one prediction step. -/
def settingsOneOne : SamplePreprocSettings :=
  { dataset_name := "titan", num_input_steps := 1, num_pred_steps := 1,
    standardize := false, file_format := "npy" }

/-- Empty statistics store. -/
def statsEmpty : Stats := { entries := [] }

/-- Timestamps with five terms but only two validity times: nothing in the
Timestamps dataclass ties the two lists together. -/
def timestampsSkewed : Timestamps :=
  { datetime := 0, terms := [0, 3600, 7200, 10800, 14400],
    validity_times := [0, 3600] }

/-- A minimal well-formed NamedTensor used in concrete instantiations. -/
def ntTiny (featName : String) (v : Rat) : NamedTensor :=
  { tensor := { shape := [1, 1, 1, 1], dtype := DType.float64, data := [v] },
    names := axes4, feature_names := [featName] }

/-- An input-kind parameter. -/
def paramFIn : WeatherParam :=
  { name := "f", level := 500, kind := ParamKind.input,
    parameter_short_name := "f_in" }

/-- An input_output-kind parameter. -/
def paramPio : WeatherParam :=
  { name := "p", level := 500, kind := ParamKind.input_output,
    parameter_short_name := "p_io" }

/-- The sample produced by mkSample for two terms with 1 input and 1 pred
step and params [paramFIn, paramPio]. -/
def sampleC1 : Sample :=
  { timestamps :=
      { datetime := 0, terms := [0, 3600], validity_times := [0, 3600] },
    settings := settingsOneOne, params := [paramFIn, paramPio],
    stats := statsEmpty, grid := "g", member := 0,
    input_timestamps := { datetime := 0, terms := [0], validity_times := [0] },
    output_timestamps :=
      { datetime := 0, terms := [3600], validity_times := [3600] } }

/-- A fetch returning a constant 3-valued array of shape (len(timestamps),1,1,1). -/
def fetchConst : FetchFn := fun _ _ ts _ _ _ =>
  { shape := [ts.validity_times.length, 1, 1, 1], dtype := DType.float64,
    data := ts.validity_times.map (fun _ => (3 : Rat)) }

/-- A one-feature forcing tensor standing for a generate_forcings output. -/
def forcingTiny : NamedTensor := ntTiny "toa_radiation" 0

/-- An expansion function that keeps the forcing tensor unchanged. -/
def expandKeep : NamedTensor → NamedTensor → NamedTensor := fun f _ => f

/-- TitanAccessor.get_param_tensor (titan/__init__.py lines 145-173): loads
one array per date through load_data_from_disk (passed as ld, taking
dataset_name, param, date, file_format), stacks them with np.stack, expands
and transposes, then standardizes when settings.standardize and not
no_standardize using (value - mean) / std from the stats store.
load_data_from_disk returns a 2-D (lat, lon) crop, so the stacked array is
3-D: expand_dims(axis=1) gives (T,1,H,W) and transpose([0,2,3,1]) gives
(T,H,W,1), and because the moved axis has size 1 the row-major data order is
unchanged — the embedding requires the 2-D rank explicitly and models other
ranks as an error, they are never produced by the source loader. np.stack of
an empty or shape-inconsistent list raises ValueError. -/
def titan_get_param_tensor (ld : String → WeatherParam → Int → String → NDTensor)
    (param : WeatherParam) (stats : Stats) (dates : List Int)
    (settings : SamplePreprocSettings) (no_standardize : Bool) :
    Except PyErr NDTensor :=
  match dates.map (fun date =>
      ld settings.dataset_name param date settings.file_format) with
  | [] => .error .valueError
  | a :: rest =>
    if a.shape.length = 2 ∧ (∀ b ∈ rest, b.shape = a.shape ∧ b.dtype = a.dtype) then
      if settings.standardize && !no_standardize then
        .ok (NDTensor.standardizeWith
          { shape := (a :: rest).length :: (a.shape ++ [1]), dtype := a.dtype,
            data := (a :: rest).flatMap (fun x => x.data) }
          (stats.lookup param.parameter_short_name).mean
          (stats.lookup param.parameter_short_name).std)
      else
        .ok { shape := (a :: rest).length :: (a.shape ++ [1]), dtype := a.dtype,
              data := (a :: rest).flatMap (fun x => x.data) }
    else .error .valueError

/-- Settings with standardization enabled. -/
def settingsStd : SamplePreprocSettings :=
  { dataset_name := "titan", num_input_steps := 1, num_pred_steps := 1,
    standardize := true, file_format := "npy" }

/-- A stats store giving p_io mean 1 and std 2. -/
def statsPio : Stats :=
  { entries := [("p_io", { mean := 1, std := 2, minv := 0, maxv := 10 })] }

/-- A standardizing sample holding the single input_output parameter. -/
def sampleStd : Sample :=
  { timestamps :=
      { datetime := 0, terms := [0, 3600], validity_times := [0, 3600] },
    settings := settingsStd, params := [paramPio], stats := statsPio,
    grid := "g", member := 0,
    input_timestamps := { datetime := 0, terms := [0], validity_times := [0] },
    output_timestamps :=
      { datetime := 0, terms := [3600], validity_times := [3600] } }

/-- A disk loader returning a constant 2-D array with single value 3. -/
def ldConst : String → WeatherParam → Int → String → NDTensor :=
  fun _ _ _ _ => { shape := [1, 1], dtype := DType.float64, data := [3] }

/-- The raw stacked tensor titan produces for ldConst over two dates. -/
def rawStacked : NDTensor :=
  { shape := [2, 1, 1, 1], dtype := DType.float64, data := [3, 3] }

/-- rawStacked standardized with mean 1 and std 2. -/
def tStd : NDTensor :=
  { shape := [2, 1, 1, 1], dtype := DType.float64, data := [1, 1] }

/-- A fetch returning the titan-standardized tensor. -/
def fetchStd : FetchFn := fun _ _ _ _ _ _ => tStd

/-- The call Sample(date, self.settings, self.params, self.stats, self.grid)
as written in DatasetABC.write_list_valid_samples (base.py line 722) and in
TitanDataset.sample_list (titan/__init__.py lines 257 and 266): the Sample
dataclass declares exists and get_param_tensor as required fields with no
default (base.py lines 441-442), so this five-argument call raises TypeError
before any field is assigned or __post_init__ runs, for every argument value
(the date is moreover a bare datetime passed into the timestamps slot). -/
def sampleCallFiveArgs (_date : Int) (_settings : SamplePreprocSettings)
    (_params : List WeatherParam) (_stats : Stats) (_grid : String) :
    Except PyErr Sample :=
  .error .typeError

/-- The per-date loop of DatasetABC.write_list_valid_samples: build a trial
Sample with the five-argument constructor call and record the date when
is_valid holds. The result collects the dates written to the cache file. -/
def writeLoop (settings : SamplePreprocSettings) (params : List WeatherParam)
    (stats : Stats) (grid : String)
    (exf : String → WeatherParam → Timestamps → String → Bool) :
    List Int → Except PyErr (List Int)
  | [] => .ok []
  | date :: rest => do
    let s ← sampleCallFiveArgs date settings params stats grid
    let tail ← writeLoop settings params stats grid exf rest
    if s.is_valid exf then .ok (date :: tail) else .ok tail

/-- DatasetABC.write_list_valid_samples (base.py lines 716-724): iterate the
period's date_list and write each valid date to the cache file. -/
def write_list_valid_samples (period : Period)
    (settings : SamplePreprocSettings) (params : List WeatherParam)
    (stats : Stats) (grid : String)
    (exf : String → WeatherParam → Timestamps → String → Bool) :
    Except PyErr (List Int) :=
  writeLoop settings params stats grid exf period.date_list

/-- A one-day training period (start = end = epoch 0). -/
def periodOneDay : Period :=
  { start := 0, endDate := 0, step_duration := 1, name := "train",
    term_start := 0, term_end := 23 }

/-- An Item with the given inputs/outputs feature name on a (1,1,1,1) tensor. -/
def itemWithFeature (nm : String) : Item :=
  { inputs := ntTiny nm 0, forcing := ntTiny "fc" 0, outputs := ntTiny nm 1 }

theorem npArange_length (a b d : Int) :
    (npArange a b d).length = (b - a + d - 1).toNat / d.toNat := by
  unfold npArange
  rw [List.length_map, List.length_range]

theorem npArange_get (a b d : Int) (i : Nat) (hi : i < (npArange a b d).length) :
    (npArange a b d).get ⟨i, hi⟩ = a + i * d := by
  unfold npArange at hi ⊢
  rw [List.get_eq_getElem, List.getElem_map, List.getElem_range]

theorem npArange_mem_iff (a b d : Int) (x : Int) :
    x ∈ npArange a b d ↔
      ∃ k : Nat, k < (b - a + d - 1).toNat / d.toNat ∧ x = a + k * d := by
  unfold npArange
  constructor
  · intro hx
    obtain ⟨k, hk, hkx⟩ := List.mem_map.mp hx
    exact ⟨k, List.mem_range.mp hk, hkx.symm⟩
  · intro ⟨k, hk, hkx⟩
    exact List.mem_map.mpr ⟨k, List.mem_range.mpr hk, hkx.symm⟩

theorem npArange_mem_bounds (a b d : Int) (hd : 1 ≤ d) (x : Int)
    (hx : x ∈ npArange a b d) : a ≤ x ∧ x < b := by
  obtain ⟨k, hk, rfl⟩ := (npArange_mem_iff a b d x).mp hx
  have hd0 : (0 : Int) ≤ d := by omega
  constructor
  · have hkd : (0 : Int) ≤ (k : Int) * d :=
      mul_nonneg (Int.natCast_nonneg k) hd0
    omega
  · -- k + 1 ≤ length, hence (k+1) * d.toNat ≤ (b - a + d - 1).toNat
    have hmul : (k + 1) * d.toNat ≤ (b - a + d - 1).toNat / d.toNat * d.toNat :=
      Nat.mul_le_mul_right _ hk
    have hle : (k + 1) * d.toNat ≤ (b - a + d - 1).toNat :=
      le_trans hmul (Nat.div_mul_le_self _ _)
    have hcast : (((k + 1) * d.toNat : Nat) : Int) ≤ (((b - a + d - 1).toNat : Nat) : Int) :=
      Int.ofNat_le.mpr hle
    have hdt : (d.toNat : Int) = d := Int.toNat_of_nonneg hd0
    push_cast at hcast
    rw [hdt] at hcast
    have hub : ((b - a + d - 1).toNat : Int) ≤ b - a + d - 1 ∨
        ((b - a + d - 1).toNat : Int) = 0 := by
      rcases le_or_lt 0 (b - a + d - 1) with hpos | hneg
      · exact Or.inl (le_of_eq (Int.toNat_of_nonneg hpos))
      · exact Or.inr (by simp [Int.toNat_of_nonpos (le_of_lt hneg)])
    rcases hub with hub | hub
    · nlinarith
    · rw [hub] at hcast
      nlinarith

theorem npArange_length_closed (a b d : Int) (hab : a ≤ b) (hd : 1 ≤ d) :
    (npArange a (b + 1) d).length = ((b - a) / d).toNat + 1 := by
  rw [npArange_length]
  obtain ⟨M, hM⟩ := Int.eq_ofNat_of_zero_le (sub_nonneg.mpr hab)
  obtain ⟨D, hD⟩ := Int.eq_ofNat_of_zero_le (le_trans zero_le_one hd)
  have hD1 : 1 ≤ D := by omega
  have h1 : b + 1 - a + d - 1 = (M : Int) + (D : Int) := by omega
  have h2 : (b + 1 - a + d - 1).toNat = M + D := by
    rw [h1]
    exact_mod_cast Int.toNat_natCast (M + D)
  have h3 : d.toNat = D := by rw [hD]; exact Int.toNat_natCast D
  have h4 : (b - a) / d = ((M / D : Nat) : Int) := by
    rw [hM, hD]
    norm_cast
  rw [h2, h3, h4, Int.toNat_natCast]
  exact Nat.add_div_right M (by omega)

theorem npArange_chain (a b d : Int) (hd : 1 ≤ d) :
    List.Chain' (· < ·) (npArange a b d) := by
  rw [List.chain'_iff_get]
  intro i h
  rw [npArange_get, npArange_get]
  have : ((i : Int) + 1) * d = (i : Int) * d + d := by ring
  push_cast
  nlinarith

/-- C5, counterexample: for the period 2021-06-15T00:00 .. 2021-06-15T03:00,
date_list is [2021-06-15T00:00, 2021-06-16T00:00] and its second element is
strictly later than the period's end date, contradicting the claim that every
element lies between start and end inclusive. -/
theorem date_list_exceeds_end_cex :
    periodScenario.date_list = [1623715200, 1623801600] ∧
      periodScenario.endDate < 1623801600 := by
  constructor
  · rfl
  · decide

/-- C5 (amended): date_list is the ordered list spaced exactly 24 hours apart,
whose first element equals the period's start date; every element lies between
the start date (inclusive) and end + 24 hours (exclusive) — elements may
exceed end when the end date's time-of-day differs from the start date's. -/
theorem date_list_spacing_bounds (p : Period) (h : p.start ≤ p.endDate) :
    p.date_list.head? = some p.start ∧
      (∀ (i : Nat) (hi : i < p.date_list.length),
        p.date_list.get ⟨i, hi⟩ = p.start + i * 86400) ∧
      List.Chain' (· < ·) p.date_list ∧
      ∀ x ∈ p.date_list, p.start ≤ x ∧ x < p.endDate + 86400 := by
  have hlen : 0 < p.date_list.length := by
    unfold Period.date_list secondsPerDay
    rw [npArange_length]
    have h1 : (86400 : Int) ≤ p.endDate + 86400 - p.start + 86400 - 1 := by omega
    have h2 : (86400 : Nat) ≤ (p.endDate + 86400 - p.start + 86400 - 1).toNat := by
      omega
    have : (86400 : Int).toNat = 86400 := rfl
    rw [this]
    exact Nat.div_pos h2 (by omega)
  refine ⟨?_, ?_, ?_, ?_⟩
  · rw [List.head?_eq_getElem?, List.getElem?_eq_getElem hlen]
    have := npArange_get p.start (p.endDate + secondsPerDay) secondsPerDay 0
      (by exact hlen)
    simp only [Period.date_list, List.get_eq_getElem] at this ⊢
    rw [this]
    simp
  · intro i hi
    have := npArange_get p.start (p.endDate + secondsPerDay) secondsPerDay i hi
    simpa [Period.date_list, secondsPerDay] using this
  · exact npArange_chain _ _ _ (by unfold secondsPerDay; omega)
  · intro x hx
    have := npArange_mem_bounds p.start (p.endDate + secondsPerDay) secondsPerDay
      (by unfold secondsPerDay; omega) x hx
    simpa [secondsPerDay] using this

/-- C5 witness: the amended statement instantiated at the concrete scenario
period. -/
theorem date_list_spacing_bounds_witness :
    periodScenario.date_list.head? = some periodScenario.start ∧
      (∀ (i : Nat) (hi : i < periodScenario.date_list.length),
        periodScenario.date_list.get ⟨i, hi⟩ = periodScenario.start + i * 86400) ∧
      List.Chain' (· < ·) periodScenario.date_list ∧
      ∀ x ∈ periodScenario.date_list,
        periodScenario.start ≤ x ∧ x < periodScenario.endDate + 86400 :=
  date_list_spacing_bounds periodScenario (by decide)

/-- C8: for term_start ≤ term_end and a positive integer step_duration,
terms_list has length floor((term_end - term_start)/step_duration) + 1 and
its i-th element is term_start + i * step_duration, strictly increasing. -/
theorem terms_list_length_and_elems (p : Period)
    (h1 : p.term_start ≤ p.term_end) (h2 : 1 ≤ p.step_duration) :
    p.terms_list.length = ((p.term_end - p.term_start) / p.step_duration).toNat + 1 ∧
      (∀ (i : Nat) (hi : i < p.terms_list.length),
        p.terms_list.get ⟨i, hi⟩ = p.term_start + i * p.step_duration) ∧
      List.Chain' (· < ·) p.terms_list := by
  refine ⟨?_, ?_, ?_⟩
  · exact npArange_length_closed p.term_start p.term_end p.step_duration h1 h2
  · intro i hi
    exact npArange_get p.term_start (p.term_end + 1) p.step_duration i hi
  · exact npArange_chain _ _ _ h2

/-- C8 witness: the statement instantiated at the concrete scenario period
(term window 0..11, step 2: six terms 0,2,4,6,8,10). -/
theorem terms_list_length_and_elems_witness :
    periodScenario.terms_list.length =
        ((periodScenario.term_end - periodScenario.term_start) /
          periodScenario.step_duration).toNat + 1 ∧
      (∀ (i : Nat) (hi : i < periodScenario.terms_list.length),
        periodScenario.terms_list.get ⟨i, hi⟩ =
          periodScenario.term_start + i * periodScenario.step_duration) ∧
      List.Chain' (· < ·) periodScenario.terms_list :=
  terms_list_length_and_elems periodScenario (by decide) (by decide)

theorem loadLoop_eq (s : Sample) (fetch : FetchFn) (fl : Bool)
    (ps : List WeatherParam) :
    loadLoop s fetch fl ps =
      (ps.map (fun q => (q, tsArg s q)),
       (ps.filter (fun q => q.kind == ParamKind.input_output)).map (fun q =>
         { tensor := (fetch q s.stats s.timestamps s.settings fl
             s.member).sliceFirst s.settings.num_input_steps,
           names := axes4, feature_names := [q.parameter_short_name] }),
       ps.filterMap (fun q =>
         match q.kind with
         | ParamKind.input => none
         | ParamKind.output => some
             { tensor := fetch q s.stats s.output_timestamps s.settings fl s.member,
               names := axes4, feature_names := [q.parameter_short_name] }
         | ParamKind.input_output => some
             { tensor := (fetch q s.stats s.timestamps s.settings fl
                 s.member).sliceLast s.settings.num_pred_steps,
               names := axes4, feature_names := [q.parameter_short_name] })) := by
  induction ps with
  | nil => rfl
  | cons q rest ih =>
    cases hk : q.kind <;>
      simp [loadLoop, ih, tsArg, hk, List.filter_cons, List.filterMap_cons]

/-- C6, counterexample: Sample.__post_init__ checks
len(timestamps.validity_times), not len(timestamps.terms). With 1 input and
1 prediction step and a Timestamps carrying five terms but two validity
times, construction succeeds while len(terms) = 5 differs from
num_input_steps + num_pred_steps = 2— so the claimed invariant on terms does
not hold and the claimed failure does not occur. -/
theorem sample_terms_invariant_cex :
    (mkSample timestampsSkewed settingsOneOne [] statsEmpty "g" 0).map
        (fun s => s.timestamps.terms.length) = .ok 5 ∧
      settingsOneOne.num_input_steps + settingsOneOne.num_pred_steps = 2 := by
  constructor
  · rfl
  · rfl

/-- C6 (amended): the construction invariant is on validity_times —
construction succeeds exactly when len(timestamps.validity_times) equals
num_input_steps + num_pred_steps, and every successfully constructed Sample
satisfies that equality; the terms list length is not constrained. -/
theorem mkSample_ok_iff_validity_times (ts : Timestamps)
    (se : SamplePreprocSettings) (ps : List WeatherParam) (st : Stats)
    (grid : String) (member : Int) :
    ((mkSample ts se ps st grid member).isOk = true ↔
        ts.validity_times.length = se.num_input_steps + se.num_pred_steps) ∧
      ∀ s, mkSample ts se ps st grid member = .ok s →
        s.timestamps.validity_times.length =
          s.settings.num_input_steps + s.settings.num_pred_steps := by
  constructor
  · unfold mkSample
    by_cases h : se.num_input_steps + se.num_pred_steps = ts.validity_times.length
    · rw [if_neg (by omega :
        ¬ se.num_input_steps + se.num_pred_steps ≠ ts.validity_times.length)]
      simp [Except.isOk, Except.toBool, h.symm]
    · rw [if_pos (by omega :
        se.num_input_steps + se.num_pred_steps ≠ ts.validity_times.length)]
      simp [Except.isOk, Except.toBool]
      omega
  · intro s hs
    unfold mkSample at hs
    by_cases h : se.num_input_steps + se.num_pred_steps = ts.validity_times.length
    · rw [if_neg (by omega :
        ¬ se.num_input_steps + se.num_pred_steps ≠ ts.validity_times.length)] at hs
      cases hs
      simpa using h.symm
    · rw [if_pos (by omega :
        se.num_input_steps + se.num_pred_steps ≠ ts.validity_times.length)] at hs
      cases hs

/-- C6 witness: the amended invariant exercised at a concrete construction
that succeeds with two validity times and 1+1 steps. -/
theorem mkSample_ok_iff_validity_times_witness :
    (mkSample timestampsSkewed settingsOneOne [] statsEmpty "g" 0).isOk = true ∧
      ∀ s, mkSample timestampsSkewed settingsOneOne [] statsEmpty "g" 0 = .ok s →
        s.timestamps.validity_times.length =
          s.settings.num_input_steps + s.settings.num_pred_steps :=
  ⟨(mkSample_ok_iff_validity_times timestampsSkewed settingsOneOne [] statsEmpty
      "g" 0).1.mpr (by decide),
   (mkSample_ok_iff_validity_times timestampsSkewed settingsOneOne [] statsEmpty
      "g" 0).2⟩

/-- C7: Item construction fails whenever inputs and outputs differ in
axis-name ordering or in feature-name sets, and every successfully constructed
Item has identical axis names and identical feature names (the source compares
the name lists, which is stricter than set equality, so set inequality always
raises). -/
theorem item_post_init_checks (i f o : NamedTensor) :
    ((i.names ≠ o.names ∨
        i.feature_names.toFinset ≠ o.feature_names.toFinset) →
      mkItem i f o = .error .valueError) ∧
      ∀ it, mkItem i f o = .ok it →
        it.inputs.names = it.outputs.names ∧
          it.inputs.feature_names = it.outputs.feature_names := by
  constructor
  · intro h
    unfold mkItem
    by_cases hn : i.names = o.names
    · have hf : i.feature_names ≠ o.feature_names := by
        rcases h with h | h
        · exact absurd hn h
        · intro hc; exact h (by rw [hc])
      simp [hn, hf]
    · simp [hn]
  · intro it hit
    unfold mkItem at hit
    by_cases hn : i.names = o.names
    · by_cases hf : i.feature_names = o.feature_names
      · simp [hn, hf] at hit
        rw [← hit]
        exact ⟨hn, hf⟩
      · simp [hn, hf] at hit
    · simp [hn] at hit

/-- C7 witness: a mismatching pair is rejected and a matching pair yields an
Item with identical names, both read off from item_post_init_checks at
concrete tensors. -/
theorem item_post_init_checks_witness :
    mkItem (ntTiny "a" 0) (ntTiny "c" 0) (ntTiny "b" 0) = .error .valueError ∧
      ∀ it, mkItem (ntTiny "a" 0) (ntTiny "c" 0) (ntTiny "a" 0) = .ok it →
        it.inputs.names = it.outputs.names ∧
          it.inputs.feature_names = it.outputs.feature_names :=
  ⟨(item_post_init_checks (ntTiny "a" 0) (ntTiny "c" 0) (ntTiny "b" 0)).1
      (Or.inr (by decide)),
   (item_post_init_checks (ntTiny "a" 0) (ntTiny "c" 0) (ntTiny "a" 0)).2⟩

theorem flatMap_singleton_map {A B : Type} (g : A → B) (l : List A) :
    (l.flatMap fun a => [g a]) = l.map g := by
  induction l with
  | nil => rfl
  | cons a r ih => simp [ih]

theorem bind_ne_indexError {A B : Type} (x : Except PyErr A)
    (f : A → Except PyErr B) (hx : x ≠ .error .indexError)
    (hf : ∀ a, f a ≠ .error .indexError) : (x >>= f) ≠ .error .indexError := by
  cases x with
  | error e => simpa [Bind.bind, Except.bind] using hx
  | ok a => simpa [Bind.bind, Except.bind] using hf a

theorem ntConcat_ne_indexError (ls : List NamedTensor) :
    ntConcat ls ≠ .error .indexError := by
  cases ls with
  | nil => simp [ntConcat]
  | cons a r =>
    simp only [ntConcat]
    split_ifs <;> simp

theorem mkItem_ne_indexError (i f o : NamedTensor) :
    mkItem i f o ≠ .error .indexError := by
  unfold mkItem
  split_ifs <;> simp

/-- C10: Sample.load raises IndexError (from indexing linputs[0] in the
forcing-expansion step) exactly when the parameter list contains no
input_output parameter — the inputs list is populated solely by the
input_output branch, so load reaches Item construction only when at least one
input_output parameter is present. -/
theorem load_index_error_iff_no_input_output (s : Sample) (fetch : FetchFn)
    (forcings : List NamedTensor)
    (expand : NamedTensor → NamedTensor → NamedTensor) (nstd : Bool) :
    (Sample.load s fetch forcings expand nstd).result = .error .indexError ↔
      ∀ q ∈ s.params, q.kind ≠ ParamKind.input_output := by
  have hloop := loadLoop_eq s fetch (s.settings.standardize && !nstd) s.params
  simp only [Sample.load, hloop]
  cases hf : s.params.filter (fun q => q.kind == ParamKind.input_output) with
  | nil =>
    simp only [hf, List.map_nil]
    constructor
    · intro _ q hq hk
      have hmem : q ∈ s.params.filter (fun x => x.kind == ParamKind.input_output) :=
        List.mem_filter.mpr ⟨hq, by simp [hk]⟩
      rw [hf] at hmem
      cases hmem
    · intro _
      trivial
  | cons l0 r =>
    simp only [hf, List.map_cons]
    constructor
    · intro h
      exfalso
      revert h
      apply bind_ne_indexError _ _ (ntConcat_ne_indexError _)
      intro ci
      apply bind_ne_indexError _ _ (ntConcat_ne_indexError _)
      intro co
      apply bind_ne_indexError _ _ (ntConcat_ne_indexError _)
      intro cf
      exact mkItem_ne_indexError ci cf co
    · intro hall
      exfalso
      have hmem : l0 ∈ s.params.filter (fun x => x.kind == ParamKind.input_output) := by
        rw [hf]
        exact List.mem_cons_self l0 r
      have hsp := List.mem_filter.mp hmem
      exact hall l0 hsp.1 (by simpa using hsp.2)

/-- C1 (amended): for every parameter of kind input, Sample.load fetches its
array over the input sub-range (the fetch call appears in the fetch sequence
with input_timestamps), but the wrapped single-feature tensor is discarded:
the inputs list — and hence the feature-axis concatenation that forms the
Item's inputs — consists exactly of the input_output parameters' slices, so
the input-kind parameter contributes no feature to the inputs tensor. -/
theorem load_fetch_log_and_inputs (s : Sample) (fetch : FetchFn)
    (forcings : List NamedTensor)
    (expand : NamedTensor → NamedTensor → NamedTensor) (nstd : Bool) :
    (Sample.load s fetch forcings expand nstd).fetches =
        s.params.map (fun q => (q, tsArg s q)) ∧
      (Sample.load s fetch forcings expand nstd).linputs =
        (s.params.filter (fun q => q.kind == ParamKind.input_output)).map
          (fun q =>
            { tensor := (fetch q s.stats s.timestamps s.settings
                (s.settings.standardize && !nstd) s.member).sliceFirst
                  s.settings.num_input_steps,
              names := axes4,
              feature_names := [q.parameter_short_name] }) ∧
      (Sample.load s fetch forcings expand nstd).linputs.flatMap
          (fun nt => nt.feature_names) =
        (s.params.filter (fun q => q.kind == ParamKind.input_output)).map
          (fun q => q.parameter_short_name) := by
  have hloop := loadLoop_eq s fetch (s.settings.standardize && !nstd) s.params
  refine ⟨?_, ?_, ?_⟩ <;>
    simp [Sample.load, hloop, List.flatMap_map, Function.comp,
      flatMap_singleton_map]

/-- C1, counterexample: for a validly constructed Sample whose parameters are
one input-kind parameter (short name f_in) and one input_output parameter
(short name p_io), load does fetch f_in over the input sub-range, yet the
resulting Item's inputs tensor carries only the feature p_io: the input-kind
parameter is not included in the inputs concatenation, contradicting the
claim. -/
theorem input_param_dropped_cex :
    mkSample { datetime := 0, terms := [0, 3600], validity_times := [0, 3600] }
        settingsOneOne [paramFIn, paramPio] statsEmpty "g" 0 = .ok sampleC1 ∧
      (paramFIn, sampleC1.input_timestamps) ∈
        (Sample.load sampleC1 fetchConst [forcingTiny] expandKeep false).fetches ∧
      (Sample.load sampleC1 fetchConst [forcingTiny] expandKeep false).result.map
          (fun it => it.inputs.feature_names) = .ok ["p_io"] ∧
      paramFIn.parameter_short_name ∉ ["p_io"] := by
  refine ⟨by decide, by decide, by decide, by decide⟩

theorem fetches_count_eq (s : Sample) (p : WeatherParam)
    (hts : tsArg s p = s.timestamps) (ps : List WeatherParam) :
    (ps.map (fun q => (q, tsArg s q))).count (p, s.timestamps) = ps.count p := by
  induction ps with
  | nil => rfl
  | cons q rest ih =>
    simp only [List.map_cons, List.count_cons, ih]
    by_cases hqp : q = p
    · subst hqp
      simp [hts]
    · simp [hqp, Prod.ext_iff]

/-- C3: for an input_output parameter p occurring once in the parameter list,
Sample.load fetches p exactly once, over the entire timestamp range; the
tensor Titan's get_param_tensor hands back is the raw stacked array with
(value - mean)/std applied (standardization before any slicing); and load
splits that tensor into an input slice of the first num_input_steps timesteps
and an output slice of the last num_pred_steps timesteps. -/
theorem load_input_output_standardize_before_slice
    (s : Sample) (ld : String → WeatherParam → Int → String → NDTensor)
    (fetch : FetchFn) (forcings : List NamedTensor)
    (expand : NamedTensor → NamedTensor → NamedTensor)
    (p : WeatherParam) (t raw : NDTensor)
    (hcount : s.params.count p = 1)
    (hkind : p.kind = ParamKind.input_output)
    (hstd : s.settings.standardize = true)
    (hraw : titan_get_param_tensor ld p s.stats s.timestamps.validity_times
      s.settings true = .ok raw)
    (ht : titan_get_param_tensor ld p s.stats s.timestamps.validity_times
      s.settings false = .ok t)
    (hfetch : fetch p s.stats s.timestamps s.settings true s.member = t) :
    (Sample.load s fetch forcings expand false).fetches.count (p, s.timestamps) = 1 ∧
      (∀ ts2, (p, ts2) ∈ (Sample.load s fetch forcings expand false).fetches →
        ts2 = s.timestamps) ∧
      t = raw.standardizeWith (s.stats.lookup p.parameter_short_name).mean
        (s.stats.lookup p.parameter_short_name).std ∧
      ({ tensor := t.sliceFirst s.settings.num_input_steps, names := axes4,
          feature_names := [p.parameter_short_name] } : NamedTensor) ∈
        (Sample.load s fetch forcings expand false).linputs ∧
      ({ tensor := t.sliceLast s.settings.num_pred_steps, names := axes4,
          feature_names := [p.parameter_short_name] } : NamedTensor) ∈
        (Sample.load s fetch forcings expand false).loutputs := by
  have hts : tsArg s p = s.timestamps := by
    unfold tsArg
    rw [hkind]
  have hflag : (s.settings.standardize && !false) = true := by simp [hstd]
  have hloop := loadLoop_eq s fetch (s.settings.standardize && !false) s.params
  have hmemp : p ∈ s.params := by
    have : 0 < s.params.count p := by omega
    exact List.count_pos_iff.mp this
  refine ⟨?_, ?_, ?_, ?_, ?_⟩
  · simp only [Sample.load, hloop]
    rw [fetches_count_eq s p hts s.params, hcount]
  · intro ts2 hmem
    simp only [Sample.load, hloop] at hmem
    obtain ⟨q, _, hq⟩ := List.mem_map.mp hmem
    have hq1 : q = p := congrArg Prod.fst hq
    subst hq1
    have := congrArg Prod.snd hq
    simp only at this
    rw [← this, hts]
  · -- standardization is applied inside get_param_tensor, before load slices
    unfold titan_get_param_tensor at hraw ht
    cases harr : s.timestamps.validity_times.map (fun date =>
        ld s.settings.dataset_name p date s.settings.file_format) with
    | nil =>
      rw [harr] at hraw
      cases hraw
    | cons a rest =>
      rw [harr] at hraw ht
      simp only [] at hraw ht
      by_cases hok : a.shape.length = 2 ∧
          (∀ b ∈ rest, b.shape = a.shape ∧ b.dtype = a.dtype)
      · rw [if_pos hok] at hraw ht
        simp only [Bool.not_true, Bool.and_false, Bool.false_eq_true,
          if_false] at hraw
        simp only [Bool.not_false, Bool.and_true, hstd, if_true] at ht
        cases hraw
        cases ht
        rfl
      · rw [if_neg hok] at hraw
        cases hraw
  · simp only [Sample.load, hloop]
    refine List.mem_map.mpr ⟨p, List.mem_filter.mpr ⟨hmemp, by simp [hkind]⟩, ?_⟩
    rw [hflag, hfetch]
  · simp only [Sample.load, hloop]
    refine List.mem_filterMap.mpr ⟨p, hmemp, ?_⟩
    rw [hkind]
    simp only [hflag, hfetch]

/-- C3 witness: the statement instantiated at a concrete standardizing sample
with one input_output parameter and the constant titan loader. -/
theorem load_input_output_standardize_before_slice_witness :
    (Sample.load sampleStd fetchStd [forcingTiny] expandKeep false).fetches.count
        (paramPio, sampleStd.timestamps) = 1 ∧
      (∀ ts2, (paramPio, ts2) ∈
          (Sample.load sampleStd fetchStd [forcingTiny] expandKeep false).fetches →
        ts2 = sampleStd.timestamps) ∧
      tStd = rawStacked.standardizeWith
        (sampleStd.stats.lookup paramPio.parameter_short_name).mean
        (sampleStd.stats.lookup paramPio.parameter_short_name).std ∧
      ({ tensor := tStd.sliceFirst sampleStd.settings.num_input_steps,
          names := axes4,
          feature_names := [paramPio.parameter_short_name] } : NamedTensor) ∈
        (Sample.load sampleStd fetchStd [forcingTiny] expandKeep false).linputs ∧
      ({ tensor := tStd.sliceLast sampleStd.settings.num_pred_steps,
          names := axes4,
          feature_names := [paramPio.parameter_short_name] } : NamedTensor) ∈
        (Sample.load sampleStd fetchStd [forcingTiny] expandKeep false).loutputs :=
  load_input_output_standardize_before_slice sampleStd ldConst fetchStd
    [forcingTiny] expandKeep paramPio tStd rawStacked (by decide) (by decide)
    (by decide)
    (by
      unfold titan_get_param_tensor
      norm_num [ldConst, sampleStd, settingsStd, rawStacked])
    (by
      unfold titan_get_param_tensor
      norm_num [ldConst, sampleStd, settingsStd, statsPio, paramPio,
        Stats.lookup, NDTensor.standardizeWith, tStd, List.find?])
    rfl

/-- C2: for every period with at least one candidate date, writing the list of
valid samples raises TypeError at the very first trial-Sample construction —
the five-argument Sample call omits the required exists and get_param_tensor
arguments — so no validity cache line is ever produced (and the cached-path
reconstruction in TitanDataset.sample_list fails the same way), making the
claimed round-trip unrealizable on this code. -/
theorem write_list_valid_samples_raises (period : Period)
    (settings : SamplePreprocSettings) (params : List WeatherParam)
    (stats : Stats) (grid : String)
    (exf : String → WeatherParam → Timestamps → String → Bool)
    (h : period.date_list ≠ []) :
    write_list_valid_samples period settings params stats grid exf =
      .error .typeError := by
  unfold write_list_valid_samples
  cases hd : period.date_list with
  | nil => exact absurd hd h
  | cons d rest =>
    simp [writeLoop, sampleCallFiveArgs, Bind.bind, Except.bind]

/-- C2 witness: the failing write instantiated at a concrete one-day period. -/
theorem write_list_valid_samples_raises_witness :
    write_list_valid_samples periodOneDay settingsOneOne [] statsEmpty "g"
      (fun _ _ _ _ => true) = .error .typeError :=
  write_list_valid_samples_raises periodOneDay settingsOneOne [] statsEmpty "g"
    (fun _ _ _ _ => true) (by decide)

theorem collate_tensor_fn_cons (t0 : NDTensor) (ts : List NDTensor)
    (h : ∀ b ∈ ts, b.shape = t0.shape ∧ b.dtype = t0.dtype) :
    collate_tensor_fn (t0 :: ts) =
      .ok { shape := (t0 :: ts).length :: t0.shape, dtype := t0.dtype,
            data := (t0 :: ts).flatMap (fun t => t.data) } := by
  simp only [collate_tensor_fn]
  rw [if_pos h]

theorem collate_fn_cons_eq (it0 : Item) (rest : List Item)
    (hi : ∀ it ∈ rest, it.inputs.tensor.shape = it0.inputs.tensor.shape ∧
      it.inputs.tensor.dtype = it0.inputs.tensor.dtype)
    (hf : ∀ it ∈ rest, it.forcing.tensor.shape = it0.forcing.tensor.shape ∧
      it.forcing.tensor.dtype = it0.forcing.tensor.dtype)
    (ho : ∀ it ∈ rest, it.outputs.tensor.shape = it0.outputs.tensor.shape ∧
      it.outputs.tensor.dtype = it0.outputs.tensor.dtype)
    (hn : it0.inputs.names = it0.outputs.names)
    (hfn : it0.inputs.feature_names = it0.outputs.feature_names) :
    collate_fn (it0 :: rest) = .ok
      { inputs :=
          { tensor :=
              { shape := (it0 :: rest).length :: it0.inputs.tensor.shape,
                dtype := DType.float32,
                data := (it0 :: rest).flatMap (fun it => it.inputs.tensor.data) },
            names := "batch" :: it0.inputs.names,
            feature_names := it0.inputs.feature_names },
        forcing :=
          { tensor :=
              { shape := (it0 :: rest).length :: it0.forcing.tensor.shape,
                dtype := DType.float32,
                data := (it0 :: rest).flatMap (fun it => it.forcing.tensor.data) },
            names := "batch" :: it0.forcing.names,
            feature_names := it0.forcing.feature_names },
        outputs :=
          { tensor :=
              { shape := (it0 :: rest).length :: it0.outputs.tensor.shape,
                dtype := DType.float32,
                data := (it0 :: rest).flatMap (fun it => it.outputs.tensor.data) },
            names := "batch" :: it0.outputs.names,
            feature_names := it0.outputs.feature_names } } := by
  have h1 := collate_tensor_fn_cons it0.inputs.tensor
    (rest.map (fun it => it.inputs.tensor)) (by
      intro b hb
      obtain ⟨it, hit, rfl⟩ := List.mem_map.mp hb
      exact hi it hit)
  have h2 := collate_tensor_fn_cons it0.forcing.tensor
    (rest.map (fun it => it.forcing.tensor)) (by
      intro b hb
      obtain ⟨it, hit, rfl⟩ := List.mem_map.mp hb
      exact hf it hit)
  have h3 := collate_tensor_fn_cons it0.outputs.tensor
    (rest.map (fun it => it.outputs.tensor)) (by
      intro b hb
      obtain ⟨it, hit, rfl⟩ := List.mem_map.mp hb
      exact ho it hit)
  simp only [collate_fn, List.map_cons, h1, h2, h3, Except.map, Bind.bind,
    Except.bind, NDTensor.typeFloat32, expand_to_batch_like, mkItemBatch]
  rw [if_neg (by simp [hn]), if_neg (by simp [hfn])]
  simp [List.flatMap_cons, List.flatMap_map, Function.comp, List.length_map]

/-- C4 (amended): the batch collator performs no cross-item validation of
feature-name lists or axis names: only raw tensor shapes/dtypes constrain the
underlying stack, and all axis names and feature names of the resulting batch
are copied from the first item, silently ignoring every other item's
metadata. -/
theorem collate_fn_uses_first_item_metadata (it0 : Item) (rest : List Item)
    (hi : ∀ it ∈ rest, it.inputs.tensor.shape = it0.inputs.tensor.shape ∧
      it.inputs.tensor.dtype = it0.inputs.tensor.dtype)
    (hf : ∀ it ∈ rest, it.forcing.tensor.shape = it0.forcing.tensor.shape ∧
      it.forcing.tensor.dtype = it0.forcing.tensor.dtype)
    (ho : ∀ it ∈ rest, it.outputs.tensor.shape = it0.outputs.tensor.shape ∧
      it.outputs.tensor.dtype = it0.outputs.tensor.dtype)
    (hn : it0.inputs.names = it0.outputs.names)
    (hfn : it0.inputs.feature_names = it0.outputs.feature_names) :
    ∃ b, collate_fn (it0 :: rest) = .ok b ∧
      b.inputs.names = "batch" :: it0.inputs.names ∧
      b.inputs.feature_names = it0.inputs.feature_names ∧
      b.forcing.names = "batch" :: it0.forcing.names ∧
      b.forcing.feature_names = it0.forcing.feature_names ∧
      b.outputs.names = "batch" :: it0.outputs.names ∧
      b.outputs.feature_names = it0.outputs.feature_names := by
  refine ⟨_, collate_fn_cons_eq it0 rest hi hf ho hn hfn, ?_, ?_, ?_, ?_, ?_, ?_⟩
    <;> rfl

/-- C4, counterexample: two individually valid Items whose feature-name lists
differ (a vs b) are collated without any raised failure; the batch silently
carries the first item's feature names, so the mismatch is ignored rather
than fatal. -/
theorem collate_fn_no_cross_item_check_cex :
    (mkItem (ntTiny "a" 0) (ntTiny "fc" 0) (ntTiny "a" 1)).isOk = true ∧
      (mkItem (ntTiny "b" 0) (ntTiny "fc" 0) (ntTiny "b" 1)).isOk = true ∧
      (itemWithFeature "a").inputs.feature_names ≠
        (itemWithFeature "b").inputs.feature_names ∧
      (collate_fn [itemWithFeature "a", itemWithFeature "b"]).map
        (fun b => b.inputs.feature_names) = .ok ["a"] := by
  refine ⟨by decide, by decide, by decide, by decide⟩

/-- C4 witness: the amended statement exercised at two concrete items with
differing feature names — the collation succeeds and keeps the first item's
metadata. -/
theorem collate_fn_uses_first_item_metadata_witness :
    ∃ b, collate_fn [itemWithFeature "a", itemWithFeature "b"] = .ok b ∧
      b.inputs.names = "batch" :: (itemWithFeature "a").inputs.names ∧
      b.inputs.feature_names = (itemWithFeature "a").inputs.feature_names ∧
      b.forcing.names = "batch" :: (itemWithFeature "a").forcing.names ∧
      b.forcing.feature_names = (itemWithFeature "a").forcing.feature_names ∧
      b.outputs.names = "batch" :: (itemWithFeature "a").outputs.names ∧
      b.outputs.feature_names = (itemWithFeature "a").outputs.feature_names :=
  collate_fn_uses_first_item_metadata (itemWithFeature "a") [itemWithFeature "b"]
    (by decide) (by decide) (by decide) (by decide) (by decide)

/-- C9: collating N same-shaped items whose per-role tensors have shape
(T,H,W,F) yields an ItemBatch whose per-role tensors have shape (N,T,H,W,F)
with a leading axis named batch, the items' feature names and axis order
preserved, and every result tensor tagged float32 uniformly, whatever the
(uniform per role) source dtype was. -/
theorem collate_fn_shape_law (it0 : Item) (rest : List Item)
    (T H W Fi Ff Fo : Nat)
    (hishape : ∀ it ∈ it0 :: rest, it.inputs.tensor.shape = [T, H, W, Fi])
    (hfshape : ∀ it ∈ it0 :: rest, it.forcing.tensor.shape = [T, H, W, Ff])
    (hoshape : ∀ it ∈ it0 :: rest, it.outputs.tensor.shape = [T, H, W, Fo])
    (hidt : ∀ it ∈ it0 :: rest, it.inputs.tensor.dtype = it0.inputs.tensor.dtype)
    (hfdt : ∀ it ∈ it0 :: rest, it.forcing.tensor.dtype = it0.forcing.tensor.dtype)
    (hodt : ∀ it ∈ it0 :: rest, it.outputs.tensor.dtype = it0.outputs.tensor.dtype)
    (himeta : ∀ it ∈ it0 :: rest, it.inputs.names = it0.inputs.names ∧
      it.inputs.feature_names = it0.inputs.feature_names)
    (hfmeta : ∀ it ∈ it0 :: rest, it.forcing.names = it0.forcing.names ∧
      it.forcing.feature_names = it0.forcing.feature_names)
    (hometa : ∀ it ∈ it0 :: rest, it.outputs.names = it0.outputs.names ∧
      it.outputs.feature_names = it0.outputs.feature_names)
    (hn : it0.inputs.names = it0.outputs.names)
    (hfn : it0.inputs.feature_names = it0.outputs.feature_names) :
    ∃ b, collate_fn (it0 :: rest) = .ok b ∧
      b.inputs.tensor.shape = (it0 :: rest).length :: [T, H, W, Fi] ∧
      b.forcing.tensor.shape = (it0 :: rest).length :: [T, H, W, Ff] ∧
      b.outputs.tensor.shape = (it0 :: rest).length :: [T, H, W, Fo] ∧
      b.inputs.tensor.dtype = DType.float32 ∧
      b.forcing.tensor.dtype = DType.float32 ∧
      b.outputs.tensor.dtype = DType.float32 ∧
      (∀ it ∈ it0 :: rest, b.inputs.names = "batch" :: it.inputs.names ∧
        b.inputs.feature_names = it.inputs.feature_names) ∧
      (∀ it ∈ it0 :: rest, b.forcing.names = "batch" :: it.forcing.names ∧
        b.forcing.feature_names = it.forcing.feature_names) ∧
      (∀ it ∈ it0 :: rest, b.outputs.names = "batch" :: it.outputs.names ∧
        b.outputs.feature_names = it.outputs.feature_names) := by
  have hmem0 : it0 ∈ it0 :: rest := List.mem_cons_self it0 rest
  have heq := collate_fn_cons_eq it0 rest
    (by
      intro it hit
      rw [hishape it (List.mem_cons_of_mem _ hit),
        hishape it0 hmem0, hidt it (List.mem_cons_of_mem _ hit)]
      exact ⟨rfl, rfl⟩)
    (by
      intro it hit
      rw [hfshape it (List.mem_cons_of_mem _ hit),
        hfshape it0 hmem0, hfdt it (List.mem_cons_of_mem _ hit)]
      exact ⟨rfl, rfl⟩)
    (by
      intro it hit
      rw [hoshape it (List.mem_cons_of_mem _ hit),
        hoshape it0 hmem0, hodt it (List.mem_cons_of_mem _ hit)]
      exact ⟨rfl, rfl⟩)
    hn hfn
  refine ⟨_, heq, ?_, ?_, ?_, rfl, rfl, rfl, ?_, ?_, ?_⟩
  · simp [hishape it0 hmem0]
  · simp [hfshape it0 hmem0]
  · simp [hoshape it0 hmem0]
  · intro it hit
    exact ⟨by rw [(himeta it hit).1], by rw [(himeta it hit).2]⟩
  · intro it hit
    exact ⟨by rw [(hfmeta it hit).1], by rw [(hfmeta it hit).2]⟩
  · intro it hit
    exact ⟨by rw [(hometa it hit).1], by rw [(hometa it hit).2]⟩

/-- C9 witness: the shape law exercised at a two-item batch of (1,1,1,1)
float64 tensors, producing (2,1,1,1,1) float32 tensors with metadata
preserved. -/
theorem collate_fn_shape_law_witness :
    ∃ b, collate_fn [itemWithFeature "a", itemWithFeature "a"] = .ok b ∧
      b.inputs.tensor.shape = [itemWithFeature "a", itemWithFeature "a"].length
        :: [1, 1, 1, 1] ∧
      b.forcing.tensor.shape = [itemWithFeature "a", itemWithFeature "a"].length
        :: [1, 1, 1, 1] ∧
      b.outputs.tensor.shape = [itemWithFeature "a", itemWithFeature "a"].length
        :: [1, 1, 1, 1] ∧
      b.inputs.tensor.dtype = DType.float32 ∧
      b.forcing.tensor.dtype = DType.float32 ∧
      b.outputs.tensor.dtype = DType.float32 ∧
      (∀ it ∈ [itemWithFeature "a", itemWithFeature "a"],
        b.inputs.names = "batch" :: it.inputs.names ∧
          b.inputs.feature_names = it.inputs.feature_names) ∧
      (∀ it ∈ [itemWithFeature "a", itemWithFeature "a"],
        b.forcing.names = "batch" :: it.forcing.names ∧
          b.forcing.feature_names = it.forcing.feature_names) ∧
      (∀ it ∈ [itemWithFeature "a", itemWithFeature "a"],
        b.outputs.names = "batch" :: it.outputs.names ∧
          b.outputs.feature_names = it.outputs.feature_names) :=
  collate_fn_shape_law (itemWithFeature "a") [itemWithFeature "a"] 1 1 1 1 1 1
    (by decide) (by decide) (by decide) (by decide) (by decide) (by decide)
    (by decide) (by decide) (by decide) (by decide) (by decide)

end Py4cast
